import Mathlib

/-!
# Verification of the aid-manager synchronization/caching core

Shallow embedding of the parts of the `aid-manager` extension that the
frozen claims talk about:

* `ScriptService.saveScriptsAtomic`, `collectOpenBuffers`,
  `normalizeForServer`, `maybeConfirmMultiSaveDirtyOnly`,
  `withScenarioLock` (source file with the `ScriptService` class);
* `LocalStore` (snapshots, overrides, `effectiveExists`, reload flags,
  change notifications);
* `AidFsProvider.clearSnapshot`;
* `ScenarioService` tree state: `requestServerReload`,
  `getStoryCardsForTree`, `mapStoryCardsForTree`, `shouldPurgeOnRefresh`,
  `hashText`.

TypeScript `string | null` (and `string | undefined` collapsed through
`?? null`) is modelled as `Option String` with `none` for `null`.
Maps keyed by `shortId` are modelled as functions `String → Option _`
with pointwise update.  The VS Code event emitters are modelled by
returning, next to the new state, the list of payloads passed to
`fire` calls, in order.
-/

/-! ## JavaScript string primitives -/

/-- The characters stripped by JavaScript `String.prototype.trim`
(ECMAScript WhiteSpace and LineTerminator code points). -/
def jsWhitespace (c : Char) : Bool :=
  [9, 10, 11, 12, 13, 32, 0xa0, 0x1680,
   0x2000, 0x2001, 0x2002, 0x2003, 0x2004, 0x2005, 0x2006, 0x2007,
   0x2008, 0x2009, 0x200a, 0x2028, 0x2029, 0x202f, 0x205f, 0x3000,
   0xfeff].contains c.toNat

/-- JavaScript `s.trim()` on the character list. -/
def jsTrimList (l : List Char) : List Char :=
  ((l.dropWhile jsWhitespace).reverse.dropWhile jsWhitespace).reverse

/-- JavaScript `s.trim()`. -/
def jsTrim (s : String) : String :=
  ⟨jsTrimList s.data⟩

/-- `v.trim().length > 0`: the non-blank test used both by
`LocalStore.effectiveExists` and by the post-save exists/missing marking
in `saveScriptsAtomic`. -/
def nonBlank (v : String) : Bool :=
  (jsTrim v).length > 0

/-- `normalizeForServer` from the `ScriptService` source file: an empty or
whitespace-only string (and `null`/`undefined`, via `text ?? ""`) becomes
`null`; anything else passes through verbatim. -/
def normalizeForServer (text : Option String) : Option String :=
  let v := text.getD ""
  if (jsTrim v).length = 0 then none else some v

/-! ## Script slots and virtual documents -/

/-- The four fixed script slots (`ScriptEvent` in the source). -/
inductive ScriptEvent where
  | sharedLibrary
  | onInput
  | onOutput
  | onModelContext
deriving DecidableEq, Repr

/-- An open text document as seen through the VS Code workspace registry:
its URI scheme, its URI path, its dirty flag, and its current text. -/
structure Doc where
  scheme : String
  path : String
  isDirty : Bool
  text : String
deriving Repr

/-- Split a character list at every `/` (JavaScript `split("/")`). -/
def splitSlashAux : List Char → List Char → List (List Char)
  | [], acc => [acc.reverse]
  | c :: rest, acc =>
      if c = '/' then acc.reverse :: splitSlashAux rest []
      else splitSlashAux rest (c :: acc)

/-- `doc.uri.path.split("/").filter(Boolean)`. -/
def pathParts (p : String) : List String :=
  ((splitSlashAux p.data []).map (fun l => String.mk l)).filter (fun s => s ≠ "")

/-- `(parts[2] || "").replace(/\.js$/i, "")`: strip one trailing `.js`,
case-insensitively. -/
def stripJsSuffix (s : String) : String :=
  match s.data.reverse with
  | s3 :: s2 :: s1 :: _ =>
      if s1 = '.' ∧ (s2 = 'j' ∨ s2 = 'J') ∧ (s3 = 's' ∨ s3 = 'S') then
        String.mk (s.data.take (s.data.length - 3))
      else s
  | _ => s

/-- The event name a document contributes for scenario `shortId`, if its
URI passes the guards shared by `collectOpenBuffers` and
`maybeConfirmMultiSaveDirtyOnly`: scheme `aid`, first segment `scenario`,
at least three segments, second segment equal to `shortId`. -/
def docEventFor (d : Doc) (shortId : String) : Option String :=
  if d.scheme ≠ "aid" then none
  else
    let parts := pathParts d.path
    if parts.headD "" ≠ "scenario" ∨ parts.length < 3 then none
    else if parts.getD 1 "" ≠ shortId then none
    else some (stripJsSuffix (parts.getD 2 ""))

/-- The per-slot open-buffer record built by `collectOpenBuffers`
(`undefined` = `none` = no open buffer for the slot). -/
structure OpenBuffers where
  sharedLibrary : Option String := none
  onInput : Option String := none
  onOutput : Option String := none
  onModelContext : Option String := none
deriving Repr, DecidableEq

def OpenBuffers.get (b : OpenBuffers) : ScriptEvent → Option String
  | .sharedLibrary => b.sharedLibrary
  | .onInput => b.onInput
  | .onOutput => b.onOutput
  | .onModelContext => b.onModelContext

def OpenBuffers.set (b : OpenBuffers) : ScriptEvent → String → OpenBuffers
  | .sharedLibrary, t => { b with sharedLibrary := some t }
  | .onInput, t => { b with onInput := some t }
  | .onOutput, t => { b with onOutput := some t }
  | .onModelContext, t => { b with onModelContext := some t }

/-- One iteration of the `collectOpenBuffers` loop body. -/
def collectStep (shortId : String) (acc : OpenBuffers) (d : Doc) : OpenBuffers :=
  match docEventFor d shortId with
  | none => acc
  | some ev =>
      if ev = "sharedLibrary" then acc.set .sharedLibrary d.text
      else if ev = "onInput" then acc.set .onInput d.text
      else if ev = "onOutput" then acc.set .onOutput d.text
      else if ev = "onModelContext" then acc.set .onModelContext d.text
      else acc

/-- `collectOpenBuffers`: walk the open text documents in order and record
the current text of every open buffer for this scenario's four slots. -/
def collectOpenBuffers (docs : List Doc) (shortId : String) : OpenBuffers :=
  docs.foldl (collectStep shortId) {}

/-! ## The merge and outgoing payload of `saveScriptsAtomic` -/

/-- The result of the in-lock `getScenarioScripting` fetch
(`gameCode*` fields; `undefined` and `null` both collapse to `none`
through the `?? null` in the merge). -/
structure ScriptsFetched where
  gameCodeSharedLibrary : Option String := none
  gameCodeOnInput : Option String := none
  gameCodeOnOutput : Option String := none
  gameCodeOnModelContext : Option String := none
deriving Repr, DecidableEq

def ScriptsFetched.get (f : ScriptsFetched) : ScriptEvent → Option String
  | .sharedLibrary => f.gameCodeSharedLibrary
  | .onInput => f.gameCodeOnInput
  | .onOutput => f.gameCodeOnOutput
  | .onModelContext => f.gameCodeOnModelContext

/-- A four-slot record of `string | null` values (both the `merged`
object and the outgoing `payload` in `saveScriptsAtomic`). -/
structure SlotValues where
  sharedLibrary : Option String
  onInput : Option String
  onOutput : Option String
  onModelContext : Option String
deriving Repr, DecidableEq

def SlotValues.get (p : SlotValues) : ScriptEvent → Option String
  | .sharedLibrary => p.sharedLibrary
  | .onInput => p.onInput
  | .onOutput => p.onOutput
  | .onModelContext => p.onModelContext

/-- The `merged` object of `saveScriptsAtomic`:
`openBuffers.X ?? fetched.gameCodeX ?? null` per slot, then the slot
actually being saved is overwritten with the freshly written content. -/
def mergedScripts (docs : List Doc) (shortId : String) (event : ScriptEvent)
    (content : String) (fetched : ScriptsFetched) : SlotValues :=
  let ob := collectOpenBuffers docs shortId
  let base : SlotValues :=
    { sharedLibrary := (ob.get .sharedLibrary).orElse (fun _ => fetched.get .sharedLibrary)
      onInput := (ob.get .onInput).orElse (fun _ => fetched.get .onInput)
      onOutput := (ob.get .onOutput).orElse (fun _ => fetched.get .onOutput)
      onModelContext := (ob.get .onModelContext).orElse (fun _ => fetched.get .onModelContext) }
  match event with
  | .sharedLibrary => { base with sharedLibrary := some content }
  | .onInput => { base with onInput := some content }
  | .onOutput => { base with onOutput := some content }
  | .onModelContext => { base with onModelContext := some content }

/-- The outgoing `payload` of `saveScriptsAtomic`: `normalizeForServer`
applied to each merged slot. -/
def outgoingPayload (docs : List Doc) (shortId : String) (event : ScriptEvent)
    (content : String) (fetched : ScriptsFetched) : SlotValues :=
  let m := mergedScripts docs shortId event content fetched
  { sharedLibrary := normalizeForServer m.sharedLibrary
    onInput := normalizeForServer m.onInput
    onOutput := normalizeForServer m.onOutput
    onModelContext := normalizeForServer m.onModelContext }

/-! ## Pre-flight confirmation (`maybeConfirmMultiSaveDirtyOnly`) -/

/-- Whether one open document is counted by the dirty-scan loop of
`maybeConfirmMultiSaveDirtyOnly`: an `aid:` document under
`/scenario/{shortId}/…` that is dirty and whose (``.js``-stripped) third
path segment is not the literal `scenario.json`. -/
def countedAsDirtyScript (d : Doc) (shortId : String) : Bool :=
  d.isDirty &&
    match docEventFor d shortId with
    | none => false
    | some ev => ev ≠ "scenario.json"

/-- The `dirtyCount` computed by `maybeConfirmMultiSaveDirtyOnly`. -/
def dirtyCountFor (docs : List Doc) (shortId : String) : Nat :=
  (docs.filter (fun d => countedAsDirtyScript d shortId)).length

/-- `maybeConfirmMultiSaveDirtyOnly`: with at most one counted dirty
document the save proceeds without asking; otherwise the modal answer
(`confirm` = the user chose "Save All") decides. -/
def maybeConfirmMultiSaveDirtyOnly (docs : List Doc) (shortId : String)
    (confirm : Bool) : Bool :=
  if dirtyCountFor docs shortId ≤ 1 then true else confirm

/-- Observable outcome of one `saveScriptsAtomic` call up to the remote
mutation: whether it aborted with "Save cancelled.", how many RemoteAPI
calls it made, and the outgoing payload if it got that far.  (The
post-save snapshot/override writes are modelled separately; an aborted
call performs none of them.) -/
structure SaveOutcome where
  cancelled : Bool
  remoteCalls : Nat
  payload : Option SlotValues
deriving Repr, DecidableEq

/-- `saveScriptsAtomic` up to and including the remote mutation: the
pre-flight confirmation runs before the per-scenario lock is taken, and a
refusal throws `Save cancelled.` with no RemoteAPI call; otherwise the
body fetches the current scripts (one call) and sends the merged,
normalized payload (second call). -/
def saveScriptsAtomicOutcome (docs : List Doc) (shortId : String)
    (event : ScriptEvent) (content : String) (confirm : Bool)
    (fetched : ScriptsFetched) : SaveOutcome :=
  if maybeConfirmMultiSaveDirtyOnly docs shortId confirm then
    { cancelled := false
      remoteCalls := 2
      payload := some (outgoingPayload docs shortId event content fetched) }
  else
    { cancelled := true, remoteCalls := 0, payload := none }

/-! ## The per-scenario save queue (`withScenarioLock`)

`withScenarioLock` chains each incoming save onto the stored promise for
its `shortId` with `prev.catch(() => {}).then(task)` and stores
`next.finally(cleanup)` back into the map.  `.finally` settles exactly
like the promise it wraps, so the chain a later arrival extends is
settlement-equivalent to `next`.  A promise is modelled by its
settlement trace: the arrival indices of the task bodies that ran, in
execution order, plus whether it fulfilled or rejected. -/

/-- A settled JavaScript promise, reduced to what the chain can observe:
which queued task bodies ran (in order) and the final settlement. -/
structure JsPromise where
  ran : List Nat
  fulfilled : Bool
deriving Repr, DecidableEq

/-- `Promise.resolve()` — the chain start when no save is pending. -/
def JsPromise.resolved : JsPromise := ⟨[], true⟩

/-- `p.catch(() => { /* swallow */ })`: same executed tasks, always
fulfilled. -/
def JsPromise.jsCatch (p : JsPromise) : JsPromise := ⟨p.ran, true⟩

/-- `p.then(task)`: the task body runs only once `p` fulfils; its own
settlement is the task's outcome.  If `p` rejected, the body is skipped
and the rejection propagates. -/
def JsPromise.jsThen (p : JsPromise) (taskId : Nat) (taskOk : Bool) : JsPromise :=
  if p.fulfilled then ⟨p.ran ++ [taskId], taskOk⟩ else p

/-- One `withScenarioLock` arrival: chain onto the previous promise. -/
def withScenarioLockStep (prev : JsPromise) (taskId : Nat) (taskOk : Bool) : JsPromise :=
  (prev.jsCatch).jsThen taskId taskOk

/-- The chain built by a burst of concurrently initiated saves for one
`shortId`, queued in arrival order; task `i` of `tasks` is the `i`-th
arrival and `tasks[i] = true` iff its save body succeeds. -/
def scenarioLockQueue (tasks : List Bool) : JsPromise :=
  (tasks.enum).foldl (fun prev t => withScenarioLockStep prev t.1 t.2)
    JsPromise.resolved

/-! ## `LocalStore` -/

/-- `ScenarioSnapshot` from `LocalStore.ts`. -/
structure ScenarioSnapshot where
  sharedLibrary : Option String
  onInput : Option String
  onOutput : Option String
  onModelContext : Option String
deriving Repr, DecidableEq

/-- `emptySnap()`. -/
def emptySnap : ScenarioSnapshot := ⟨none, none, none, none⟩

/-- `valueOf(s, ev)` from `LocalStore.ts` (absent snapshot reads as
`null`). -/
def valueOf (s : Option ScenarioSnapshot) (ev : ScriptEvent) : Option String :=
  match s with
  | none => none
  | some snap =>
      match ev with
      | .sharedLibrary => snap.sharedLibrary
      | .onInput => snap.onInput
      | .onOutput => snap.onOutput
      | .onModelContext => snap.onModelContext

/-- A manual per-slot override state. -/
inductive OverrideState where
  | exists
  | missing
deriving DecidableEq, Repr

/-- The `LocalStore` state: snapshots, per-scenario override maps and the
force-reload flag set. -/
structure LocalStore where
  snaps : String → Option ScenarioSnapshot
  overrides : String → Option (ScriptEvent → Option OverrideState)
  forceReload : String → Bool

/-- Pointwise map update (`Map.set` / `Map.delete` with `none`). -/
def updMap {α : Type} (m : String → α) (k : String) (v : α) : String → α :=
  fun k' => if k' = k then v else m k'

def LocalStore.empty : LocalStore :=
  ⟨fun _ => none, fun _ => none, fun _ => false⟩

/-- `setSnapshot`: merge the partial snapshot over the stored one
(creating it from `emptySnap()` if absent) and fire for `shortId`.
The partial argument is modelled as per-field optional updates. -/
def LocalStore.setSnapshot (st : LocalStore) (shortId : String)
    (snap : ScenarioSnapshot) : LocalStore × List (Option String) :=
  ({ st with snaps := updMap st.snaps shortId (some snap) }, [some shortId])

/-- `clearSnapshot` from `LocalStore.ts`: delete the entry and fire for
`shortId` — the fire is unconditional in the source. -/
def LocalStore.clearSnapshot (st : LocalStore) (shortId : String) :
    LocalStore × List (Option String) :=
  ({ st with snaps := updMap st.snaps shortId none }, [some shortId])

/-- `setOverride`: write into the per-scenario override map (creating it
if absent) and fire. -/
def LocalStore.setOverride (st : LocalStore) (shortId : String)
    (ev : ScriptEvent) (state : OverrideState) : LocalStore × List (Option String) :=
  let m := (st.overrides shortId).getD (fun _ => none)
  let m' := fun e => if e = ev then some state else m e
  ({ st with overrides := updMap st.overrides shortId (some m') }, [some shortId])

/-- `clearOverrides`: delete the per-scenario override map and fire
(unconditionally, like the source). -/
def LocalStore.clearOverrides (st : LocalStore) (shortId : String) :
    LocalStore × List (Option String) :=
  ({ st with overrides := updMap st.overrides shortId none }, [some shortId])

/-- `overrideFor`. -/
def LocalStore.overrideFor (st : LocalStore) (shortId : String)
    (ev : ScriptEvent) : Option OverrideState :=
  match st.overrides shortId with
  | none => none
  | some m => m ev

/-- `effectiveExists`: override if present, else the
`typeof v === "string" && v.trim().length > 0` test on the snapshot
value. -/
def LocalStore.effectiveExists (st : LocalStore) (shortId : String)
    (ev : ScriptEvent) : Bool :=
  match st.overrideFor shortId ev with
  | some o => o = OverrideState.exists
  | none =>
      match valueOf (st.snaps shortId) ev with
      | some v => nonBlank v
      | none => false

/-- `requestServerReload` on `LocalStore`: add to the force-reload set
and fire. -/
def LocalStore.requestServerReload (st : LocalStore) (shortId : String) :
    LocalStore × List (Option String) :=
  ({ st with forceReload := updMap st.forceReload shortId true }, [some shortId])

/-- `consumeServerReload`: one-shot read-and-clear. -/
def LocalStore.consumeServerReload (st : LocalStore) (shortId : String) :
    Bool × LocalStore :=
  if st.forceReload shortId then
    (true, { st with forceReload := updMap st.forceReload shortId false })
  else
    (false, st)

/-! ## `AidFsProvider.clearSnapshot` -/

/-- The `AidFsProvider` snapshot cache (`snapshots` map). -/
structure AidFsProvider where
  snapshots : String → Option ScenarioSnapshot

/-- The file-change URI list built for one scenario (one `Changed` event
per slot file). -/
def scenarioFileUris (shortId : String) : List String :=
  ["sharedLibrary", "onInput", "onOutput", "onModelContext"].map
    (fun ev => "/scenario/" ++ shortId ++ "/" ++ ev ++ ".js")

/-- `AidFsProvider.clearSnapshot`: if the delete removed nothing, return
without firing; otherwise fire one batched file-change notification for
the four slot files.  The second component lists the `_emitter.fire`
calls (each carrying its event batch). -/
def AidFsProvider.clearSnapshot (p : AidFsProvider) (shortId : String) :
    AidFsProvider × List (List String) :=
  match p.snapshots shortId with
  | none => (p, [])
  | some _ =>
      ({ snapshots := updMap p.snapshots shortId none }, [scenarioFileUris shortId])

/-! ## `hashText` and `shouldPurgeOnRefresh` (`ScenarioService`) -/

/-- JavaScript `ToInt32`. -/
def toInt32 (n : Int) : Int := (n + 2 ^ 31) % 2 ^ 32 - 2 ^ 31

/-- The UTF-16 code units `charCodeAt` walks. -/
def utf16CodeUnits (c : Char) : List Nat :=
  if c.toNat < 0x10000 then [c.toNat]
  else [0xd800 + (c.toNat - 0x10000) / 0x400, 0xdc00 + (c.toNat - 0x10000) % 0x400]

def jsCharCodes (s : String) : List Nat :=
  (s.data.map utf16CodeUnits).flatten

/-- One loop iteration of `hashText`:
`h = ((h << 5) + h) + code; h = h & 0xffffffff` with JavaScript 32-bit
semantics (`<<` and `&` go through `ToInt32`; `& 0xffffffff` is
`ToInt32`). -/
def hashStep (h : Int) (code : Nat) : Int :=
  toInt32 (toInt32 (toInt32 h * 32) + h + code)

/-- `(h >>> 0).toString(16)`. -/
def toHexString (n : Nat) : String := String.mk (Nat.toDigits 16 n)

/-- `hashText` from the `ScenarioService` in the provider source file:
DJB2 over the UTF-16 code units, emitted as lowercase hex of the
unsigned 32-bit result. -/
def hashText (s : String) : String :=
  toHexString (((jsCharCodes s).foldl hashStep 5381) % 2 ^ 32).toNat

/-- The concatenation hashed by `shouldPurgeOnRefresh`:
the four script bodies (`?? ""`) joined with `§`. -/
def scriptsConcat (s : ScriptsFetched) : String :=
  (s.gameCodeSharedLibrary.getD "") ++ "§" ++
  (s.gameCodeOnInput.getD "") ++ "§" ++
  (s.gameCodeOnOutput.getD "") ++ "§" ++
  (s.gameCodeOnModelContext.getD "")

/-- The remembered `(editedAt, fingerprint)` maps of `ScenarioService`
(`lastScenarioEditedAt`, `lastScriptsHash`; the stored values are
themselves nullable). -/
structure FingerprintState where
  lastScenarioEditedAt : String → Option (Option String)
  lastScriptsHash : String → Option (Option String)

def FingerprintState.empty : FingerprintState :=
  ⟨fun _ => none, fun _ => none⟩

/-- One server observation for `shouldPurgeOnRefresh`: the scenario's
`editedAt ?? null` and the four script fields, or a thrown fetch error. -/
def ScenarioService.shouldPurgeOnRefresh
    (fetch : Except Unit (Option String × ScriptsFetched))
    (st : FingerprintState) (shortId : String) : Bool × FingerprintState :=
  match fetch with
  | .error _ => (true, st)
  | .ok (serverEdited, scripts) =>
      let hash := hashText (scriptsConcat scripts)
      let prevEdited := (st.lastScenarioEditedAt shortId).getD none
      let prevHash := (st.lastScriptsHash shortId).getD none
      let changed := decide (serverEdited ≠ prevEdited) || decide (some hash ≠ prevHash)
      (changed,
        { lastScenarioEditedAt := updMap st.lastScenarioEditedAt shortId (some serverEdited)
          lastScriptsHash := updMap st.lastScriptsHash shortId (some (some hash)) })

/-! ## Story cards and the `ScenarioService` tree state -/

/-- A raw story card as it arrives from the server or sits in an
override model (fields nullable/absent). -/
structure RawStoryCard where
  id : Option String := none
  title : Option String := none
  name : Option String := none
  cardType : Option String := none
  description : Option String := none
deriving Repr, DecidableEq

/-- A story card as cached for the tree. -/
structure TreeCard where
  id : String
  title : String
  cardType : String
  description : String
deriving Repr, DecidableEq

/-- `mapStoryCardsForTree`: drop nullish entries, fill defaults, and keep
only cards with a truthy (non-empty) id or title. -/
def mapStoryCardsForTree (items : List (Option RawStoryCard)) : List TreeCard :=
  ((items.filterMap id).map (fun sc =>
      { id := sc.id.getD ""
        title := (sc.title.orElse (fun _ => sc.name)).getD "Untitled"
        cardType := sc.cardType.getD "custom"
        description := sc.description.getD "" : TreeCard })).filter
    (fun sc => sc.id ≠ "" ∨ sc.title ≠ "")

/-- The `ScenarioOverrideModel` as far as the story-card tier cares:
whether it carries a `storyCards` array. -/
structure ScenarioOverrideModel where
  storyCards : Option (List (Option RawStoryCard))
deriving Repr, DecidableEq

/-- The per-scenario tree state owned by `ScenarioService`: the
`LocalStore`, the container/child memoization (`scenarioInfoCache`), the
story-card cache, and the local scenario override models. -/
structure ScenarioServiceState where
  store : LocalStore
  scenarioInfoCache : String → Option (Bool × List String)
  storyCardCache : String → Option (List TreeCard)
  scenarioOverrides : String → Option ScenarioOverrideModel

def ScenarioServiceState.empty : ScenarioServiceState :=
  ⟨LocalStore.empty, fun _ => none, fun _ => none, fun _ => none⟩

/-- `ScenarioService.requestServerReload`: clear the `LocalStore`
snapshot and overrides, set the one-shot reload flag, drop the
container/child memoization, the story-card cache and the override
model, then fire the tree emitter.  Every `LocalStore` notification is
forwarded to the tree emitter by the constructor subscription, so the
returned list contains the forwarded fires followed by the direct one. -/
def ScenarioService.requestServerReload (st : ScenarioServiceState)
    (shortId : String) : ScenarioServiceState × List (Option String) :=
  let (s1, e1) := st.store.clearSnapshot shortId
  let (s2, e2) := s1.clearOverrides shortId
  let (s3, e3) := s2.requestServerReload shortId
  ({ store := s3
     scenarioInfoCache := updMap st.scenarioInfoCache shortId none
     storyCardCache := updMap st.storyCardCache shortId none
     scenarioOverrides := updMap st.scenarioOverrides shortId none },
   e1 ++ e2 ++ e3 ++ [some shortId])

/-- What one `getStoryCardsForTree` call did: its return value, the new
state, how many RemoteAPI fetches ran, and the story-card lists pushed
to subscribing panels by `notifyStoryCardsChanged`. -/
structure GetCardsResult where
  result : List TreeCard
  state : ScenarioServiceState
  fetches : Nat
  notified : List (List TreeCard)

/-- `getStoryCardsForTree`.  `server n` is the `storyCards` array the
`n`-th `fetchScenario` of this call would return; the 300 ms pause
before the retry is not modelled (it has no observable effect here). -/
def ScenarioService.getStoryCardsForTree (st : ScenarioServiceState)
    (shortId : String) (force retryIfEmpty : Bool)
    (server : Nat → List (Option RawStoryCard)) : GetCardsResult :=
  match if force then none else (st.scenarioOverrides shortId).bind (·.storyCards) with
  | some cards =>
      let mapped := mapStoryCardsForTree cards
      { result := mapped
        state := { st with storyCardCache := updMap st.storyCardCache shortId (some mapped) }
        fetches := 0
        notified := [] }
  | none =>
      match if force then none else st.storyCardCache shortId with
      | some cached => { result := cached, state := st, fetches := 0, notified := [] }
      | none =>
          let st0 :=
            if force then
              { st with storyCardCache := updMap st.storyCardCache shortId none }
            else st
          let m0 := mapStoryCardsForTree (server 0)
          let st1 := { st0 with storyCardCache := updMap st0.storyCardCache shortId (some m0) }
          if retryIfEmpty ∧ m0.length = 0 then
            let m1 := mapStoryCardsForTree (server 1)
            let st2 := { st1 with storyCardCache := updMap st1.storyCardCache shortId (some m1) }
            { result := m1, state := st2, fetches := 2, notified := [m0, m1] }
          else
            { result := m0, state := st1, fetches := 1, notified := [m0] }

/-! ## Post-save exists/missing marking (`saveScriptsAtomic`, step 6) -/

/-- The per-slot decision in the post-save loop of `saveScriptsAtomic`:
`serverHasText = typeof val === "string" && val.trim().length > 0`;
mark "exists" when the server has non-blank text or an editor is still
open for the slot, else mark "missing". -/
def postSaveMark (val : Option String) (editorOpen : Bool) : OverrideState :=
  let serverHasText := match val with | some v => nonBlank v | none => false
  if serverHasText || editorOpen then OverrideState.exists else OverrideState.missing

/-! ## Helper lemmas -/

theorem updMap_same {α : Type} (m : String → α) (k : String) (v : α) :
    updMap m k v k = v := by
  simp [updMap]

theorem updMap_idem {α : Type} (m : String → α) (k : String) (v : α) :
    updMap (updMap m k v) k v = updMap m k v := by
  funext k'
  by_cases h : k' = k <;> simp [updMap, h]

theorem jsTrimList_eq_nil_iff (l : List Char) :
    jsTrimList l = [] ↔ ∀ c ∈ l, jsWhitespace c := by
  unfold jsTrimList
  rw [List.reverse_eq_nil_iff, List.dropWhile_eq_nil_iff]
  constructor
  · intro h c hc
    rcases List.mem_append.mp
        ((List.takeWhile_append_dropWhile (p := jsWhitespace) (l := l)) ▸ hc) with h1 | h2
    · exact List.mem_takeWhile_imp h1
    · exact h c (List.mem_reverse.mpr h2)
  · intro h c hc
    exact h c (List.Sublist.subset (List.dropWhile_sublist (p := jsWhitespace) (l := l))
      (List.mem_reverse.mp hc))

theorem jsTrim_length_eq_zero_iff (s : String) :
    (jsTrim s).length = 0 ↔ ∀ c ∈ s.data, jsWhitespace c := by
  have : (jsTrim s).length = (jsTrimList s.data).length := rfl
  rw [this, List.length_eq_zero, jsTrimList_eq_nil_iff]

theorem nonBlank_iff_exists (v : String) :
    nonBlank v = true ↔ ∃ c ∈ v.data, jsWhitespace c = false := by
  have h0 : nonBlank v = true ↔ ¬ (jsTrim v).length = 0 := by
    simp [nonBlank, Nat.pos_iff_ne_zero]
  rw [h0, jsTrim_length_eq_zero_iff]
  push_neg
  constructor
  · rintro ⟨c, hc, hw⟩
    exact ⟨c, hc, by simpa using hw⟩
  · rintro ⟨c, hc, hw⟩
    exact ⟨c, hc, by simpa using hw⟩

theorem normalizeForServer_of_all_ws {v : String}
    (h : ∀ c ∈ v.data, jsWhitespace c) : normalizeForServer (some v) = none := by
  simp [normalizeForServer, (jsTrim_length_eq_zero_iff v).mpr h]

theorem normalizeForServer_of_non_ws {v : String}
    (h : ∃ c ∈ v.data, jsWhitespace c = false) :
    normalizeForServer (some v) = some v := by
  have : ¬ (jsTrim v).length = 0 := by
    rw [jsTrim_length_eq_zero_iff]
    rcases h with ⟨c, hc, hw⟩
    intro hall
    simp [hall c hc] at hw
  simp [normalizeForServer, this]

theorem outgoingPayload_get (docs : List Doc) (shortId : String)
    (event : ScriptEvent) (content : String) (fetched : ScriptsFetched)
    (s : ScriptEvent) :
    (outgoingPayload docs shortId event content fetched).get s =
      normalizeForServer ((mergedScripts docs shortId event content fetched).get s) := by
  cases s <;> rfl

/-! ## Claims -/

/-- C1: in `saveScriptsAtomic`, the outgoing four-slot merge gives the
saved slot the freshly written content, gives every other slot with an
open buffer that buffer's current text (an empty buffer included), and
gives every slot without an open buffer the value freshly fetched from
the server during the save. -/
theorem C1_save_merge_precedence (docs : List Doc) (shortId content : String)
    (event : ScriptEvent) (fetched : ScriptsFetched) :
    (mergedScripts docs shortId event content fetched).get event = some content ∧
    (∀ s : ScriptEvent, s ≠ event → ∀ b : String,
      (collectOpenBuffers docs shortId).get s = some b →
        (mergedScripts docs shortId event content fetched).get s = some b) ∧
    (∀ s : ScriptEvent, s ≠ event →
      (collectOpenBuffers docs shortId).get s = none →
        (mergedScripts docs shortId event content fetched).get s = fetched.get s) := by
  refine ⟨?_, ?_, ?_⟩
  · cases event <;> simp [mergedScripts, SlotValues.get]
  · intro s hs b hb
    cases event <;> cases s <;>
      simp_all [mergedScripts, SlotValues.get, OpenBuffers.get, Option.orElse]
  · intro s hs hb
    cases event <;> cases s <;>
      simp_all [mergedScripts, SlotValues.get, OpenBuffers.get, ScriptsFetched.get,
        Option.orElse]

/-- Witness for C1: saving `onInput` with an open, empty `sharedLibrary`
buffer keeps the empty buffer text for `sharedLibrary` (not the server
value), and a closed `onOutput` takes the fresh server value. -/
theorem C1_save_merge_precedence_witness :
    (mergedScripts
        [⟨"aid", "/scenario/abc/sharedLibrary/S - Shared.js", false, ""⟩]
        "abc" ScriptEvent.onInput "return 1;"
        ⟨some "srvlib", none, some "srvout", none⟩).get .sharedLibrary = some "" ∧
    (mergedScripts
        [⟨"aid", "/scenario/abc/sharedLibrary/S - Shared.js", false, ""⟩]
        "abc" ScriptEvent.onInput "return 1;"
        ⟨some "srvlib", none, some "srvout", none⟩).get .onOutput = some "srvout" := by
  constructor
  · exact (C1_save_merge_precedence
        [⟨"aid", "/scenario/abc/sharedLibrary/S - Shared.js", false, ""⟩]
        "abc" "return 1;" ScriptEvent.onInput
        ⟨some "srvlib", none, some "srvout", none⟩).2.1 .sharedLibrary
        (by decide) "" (by decide)
  · exact (C1_save_merge_precedence
        [⟨"aid", "/scenario/abc/sharedLibrary/S - Shared.js", false, ""⟩]
        "abc" "return 1;" ScriptEvent.onInput
        ⟨some "srvlib", none, some "srvout", none⟩).2.2 .onOutput
        (by decide) (by decide)

/-- C2: in the outgoing payload, a merged slot value that is empty or
whitespace-only is sent as `null`, and a merged slot value with at least
one non-whitespace character is sent verbatim. -/
theorem C2_whitespace_to_null (docs : List Doc) (shortId content : String)
    (event : ScriptEvent) (fetched : ScriptsFetched) (s : ScriptEvent) (v : String)
    (hv : (mergedScripts docs shortId event content fetched).get s = some v) :
    ((∀ c ∈ v.data, jsWhitespace c) →
        (outgoingPayload docs shortId event content fetched).get s = none) ∧
    ((∃ c ∈ v.data, jsWhitespace c = false) →
        (outgoingPayload docs shortId event content fetched).get s = some v) := by
  rw [outgoingPayload_get, hv]
  exact ⟨fun h => normalizeForServer_of_all_ws h,
    fun h => normalizeForServer_of_non_ws h⟩

/-- Witness for C2: a whitespace-only open `onOutput` buffer is sent as
`null`; the saved slot's text `"  x "` passes through verbatim with its
surrounding whitespace. -/
theorem C2_whitespace_to_null_witness :
    (outgoingPayload
        [⟨"aid", "/scenario/abc/onOutput/S - Output.js", false, "  \n\t"⟩]
        "abc" ScriptEvent.onInput "  x "
        ⟨none, none, none, none⟩).get .onOutput = none ∧
    (outgoingPayload
        [⟨"aid", "/scenario/abc/onOutput/S - Output.js", false, "  \n\t"⟩]
        "abc" ScriptEvent.onInput "  x "
        ⟨none, none, none, none⟩).get .onInput = some "  x " := by
  constructor
  · exact (C2_whitespace_to_null
        [⟨"aid", "/scenario/abc/onOutput/S - Output.js", false, "  \n\t"⟩]
        "abc" "  x " ScriptEvent.onInput ⟨none, none, none, none⟩
        .onOutput "  \n\t" (by decide)).1 (by decide)
  · exact (C2_whitespace_to_null
        [⟨"aid", "/scenario/abc/onOutput/S - Output.js", false, "  \n\t"⟩]
        "abc" "  x " ScriptEvent.onInput ⟨none, none, none, none⟩
        .onInput "  x " (by decide)).2 ⟨'x', by decide, by decide⟩

/-- C3 (code bug): the dirty-scan of `maybeConfirmMultiSaveDirtyOnly`
only skips documents whose third path segment is the literal
`scenario.json`, but the extension opens scenario JSON at the flattened
path `/scenario/{shortId}/{Title - scenario.json}`, so a dirty
scenario-JSON document is counted as a dirty script: with one dirty
script buffer plus a dirty scenario-JSON buffer the count is 2 (not 1),
the multi-save confirmation is demanded, and refusing it cancels the
save even though only one script is dirty.  (Refusal itself does abort
with zero RemoteAPI calls, as the claim states.) -/
theorem C3_scenario_json_counted_as_dirty :
    dirtyCountFor
      [⟨"aid", "/scenario/abc/onInput/My Scenario - Input.js", true, "return 1;"⟩,
       ⟨"aid", "/scenario/abc/My Scenario - scenario.json", true, "\x7b\x7d"⟩] "abc" = 2 ∧
    countedAsDirtyScript
      ⟨"aid", "/scenario/abc/My Scenario - scenario.json", true, "\x7b\x7d"⟩ "abc" = true ∧
    dirtyCountFor
      [⟨"aid", "/scenario/abc/onInput/My Scenario - Input.js", true, "return 1;"⟩] "abc" = 1 ∧
    saveScriptsAtomicOutcome
      [⟨"aid", "/scenario/abc/onInput/My Scenario - Input.js", true, "return 1;"⟩,
       ⟨"aid", "/scenario/abc/My Scenario - scenario.json", true, "\x7b\x7d"⟩]
      "abc" ScriptEvent.onInput "return 1;" false ⟨none, none, none, none⟩ =
      { cancelled := true, remoteCalls := 0, payload := none } := by
  refine ⟨by decide, by decide, by decide, by decide⟩

/-- Helper for C4: folding arrivals onto any promise runs every task
body, in order, because each link is chained behind a rejection-
swallowing `catch`. -/
theorem scenarioLockQueue_go (l : List (Nat × Bool)) (p : JsPromise) :
    (l.foldl (fun prev t => withScenarioLockStep prev t.1 t.2) p).ran =
      p.ran ++ l.map (·.1) := by
  induction l generalizing p with
  | nil => simp
  | cons a l ih =>
      simp only [List.foldl_cons, List.map_cons, ih]
      simp [withScenarioLockStep, JsPromise.jsCatch, JsPromise.jsThen]

/-- C4: for one `shortId`, concurrently initiated saves queued through
`withScenarioLock` execute their bodies one at a time in arrival (FIFO)
order, and a rejected save never blocks or poisons later queued saves:
whatever the success flags, every queued body runs, in arrival order. -/
theorem C4_scenario_lock_fifo (tasks : List Bool) :
    (scenarioLockQueue tasks).ran = List.range tasks.length := by
  unfold scenarioLockQueue
  rw [scenarioLockQueue_go]
  simp [List.enum_map_fst, JsPromise.resolved]

/-- C5: `shouldPurgeOnRefresh` reports "changed" when nothing is
remembered for the scenario or the freshly fetched
`(editedAt, fingerprint)` pair differs from the remembered one; a
successful check rewrites the remembered pair whether or not it changed,
so an immediate second check against unchanged server data reports
`false`; and a fetch error yields `true` with no exception (and leaves
the remembered state as it was). -/
theorem C5_shouldPurgeOnRefresh_contract (st : FingerprintState)
    (shortId : String) (obs : Option String × ScriptsFetched) :
    (ScenarioService.shouldPurgeOnRefresh (.error ()) st shortId = (true, st)) ∧
    ((st.lastScenarioEditedAt shortId).getD none ≠ obs.1 ∨
        (st.lastScriptsHash shortId).getD none ≠ some (hashText (scriptsConcat obs.2)) →
      (ScenarioService.shouldPurgeOnRefresh (.ok obs) st shortId).1 = true) ∧
    (st.lastScriptsHash shortId = none →
      (ScenarioService.shouldPurgeOnRefresh (.ok obs) st shortId).1 = true) ∧
    ((ScenarioService.shouldPurgeOnRefresh (.ok obs) st shortId).2.lastScenarioEditedAt
        shortId = some obs.1 ∧
      (ScenarioService.shouldPurgeOnRefresh (.ok obs) st shortId).2.lastScriptsHash
        shortId = some (some (hashText (scriptsConcat obs.2)))) ∧
    ((ScenarioService.shouldPurgeOnRefresh (.ok obs)
        (ScenarioService.shouldPurgeOnRefresh (.ok obs) st shortId).2 shortId).1 = false) := by
  obtain ⟨serverEdited, scripts⟩ := obs
  refine ⟨rfl, ?_, ?_, ⟨?_, ?_⟩, ?_⟩
  · intro h
    rcases h with h | h <;>
      simp [ScenarioService.shouldPurgeOnRefresh, Ne.symm h]
  · intro h
    simp [ScenarioService.shouldPurgeOnRefresh, h]
  · simp [ScenarioService.shouldPurgeOnRefresh, updMap_same]
  · simp [ScenarioService.shouldPurgeOnRefresh, updMap_same]
  · simp [ScenarioService.shouldPurgeOnRefresh, updMap_same]

/-- Witness for C5: on an empty fingerprint state, checking, then
checking again with the same server data, yields `true` then `false`;
and the error path returns `true`. -/
theorem C5_shouldPurgeOnRefresh_witness :
    (ScenarioService.shouldPurgeOnRefresh (.ok (none, ⟨none, none, none, none⟩))
        FingerprintState.empty "abc").1 = true ∧
    (ScenarioService.shouldPurgeOnRefresh (.ok (none, ⟨none, none, none, none⟩))
        (ScenarioService.shouldPurgeOnRefresh (.ok (none, ⟨none, none, none, none⟩))
          FingerprintState.empty "abc").2 "abc").1 = false ∧
    ScenarioService.shouldPurgeOnRefresh (.error ()) FingerprintState.empty "abc" =
      (true, FingerprintState.empty) := by
  refine ⟨?_, ?_, ?_⟩
  · exact (C5_shouldPurgeOnRefresh_contract FingerprintState.empty "abc"
      (none, ⟨none, none, none, none⟩)).2.2.1 rfl
  · exact (C5_shouldPurgeOnRefresh_contract FingerprintState.empty "abc"
      (none, ⟨none, none, none, none⟩)).2.2.2.2
  · exact (C5_shouldPurgeOnRefresh_contract FingerprintState.empty "abc"
      (none, ⟨none, none, none, none⟩)).1

/-- C6 counterexample: `LocalStore.clearSnapshot` fires its change
notification unconditionally, so clearing scenario `"abc"` twice in a
row fires two notifications — the second call removes nothing yet still
notifies, refuting "at most one notification". -/
theorem C6_clearSnapshot_two_notifications :
    (LocalStore.clearSnapshot
        (LocalStore.setSnapshot LocalStore.empty "abc" emptySnap).1 "abc").2 =
      [some "abc"] ∧
    (LocalStore.clearSnapshot
        (LocalStore.clearSnapshot
          (LocalStore.setSnapshot LocalStore.empty "abc" emptySnap).1 "abc").1 "abc").2 =
      [some "abc"] ∧
    ¬ ((LocalStore.clearSnapshot
          (LocalStore.setSnapshot LocalStore.empty "abc" emptySnap).1 "abc").2.length +
        (LocalStore.clearSnapshot
          (LocalStore.clearSnapshot
            (LocalStore.setSnapshot LocalStore.empty "abc" emptySnap).1 "abc").1 "abc").2.length
        ≤ 1) := by
  refine ⟨rfl, rfl, by decide⟩

/-- C6 amended: the double-clear-fires-at-most-once property holds for
`AidFsProvider.clearSnapshot`, whose second call finds nothing to delete
and fires no file-change notification; `LocalStore.clearSnapshot`, by
contrast, fires exactly one change notification on every call, the
second call included. -/
theorem C6_clearSnapshot_idempotent_amended (p : AidFsProvider)
    (ls : LocalStore) (shortId : String) :
    (AidFsProvider.clearSnapshot (AidFsProvider.clearSnapshot p shortId).1 shortId).2 = [] ∧
    (AidFsProvider.clearSnapshot p shortId).2.length +
      (AidFsProvider.clearSnapshot (AidFsProvider.clearSnapshot p shortId).1 shortId).2.length
      ≤ 1 ∧
    (LocalStore.clearSnapshot ls shortId).2 = [some shortId] ∧
    (LocalStore.clearSnapshot (LocalStore.clearSnapshot ls shortId).1 shortId).2 =
      [some shortId] := by
  have h2 :
      (AidFsProvider.clearSnapshot (AidFsProvider.clearSnapshot p shortId).1 shortId).2 = [] := by
    rcases hp : p.snapshots shortId with _ | snap
    · simp [AidFsProvider.clearSnapshot, hp]
    · simp [AidFsProvider.clearSnapshot, hp, updMap_same]
  refine ⟨h2, ?_, rfl, rfl⟩
  rw [h2]
  rcases hp : p.snapshots shortId with _ | snap
  · simp [AidFsProvider.clearSnapshot, hp]
  · simp [AidFsProvider.clearSnapshot, hp]

/-- C7: `effectiveExists` gives overrides absolute precedence — an
`"exists"` override yields `true` and a `"missing"` override yields
`false` whatever the snapshot holds — and with no override and no cached
snapshot it yields `false`. -/
theorem C7_override_precedence (st : LocalStore) (shortId : String)
    (ev : ScriptEvent) :
    (st.overrideFor shortId ev = some OverrideState.exists →
      st.effectiveExists shortId ev = true) ∧
    (st.overrideFor shortId ev = some OverrideState.missing →
      st.effectiveExists shortId ev = false) ∧
    (st.overrideFor shortId ev = none → st.snaps shortId = none →
      st.effectiveExists shortId ev = false) := by
  refine ⟨?_, ?_, ?_⟩
  · intro h
    simp [LocalStore.effectiveExists, h]
  · intro h
    simp [LocalStore.effectiveExists, h]
  · intro h hs
    simp [LocalStore.effectiveExists, h, hs, valueOf]

/-- Witness for C7: with an `"exists"` override set for `sharedLibrary`
while the snapshot value is the empty string, `effectiveExists` is
`true`; on the empty store it is `false`. -/
theorem C7_override_precedence_witness :
    LocalStore.effectiveExists
      ((LocalStore.setOverride
        (LocalStore.setSnapshot LocalStore.empty "abc" ⟨some "", none, none, none⟩).1
        "abc" ScriptEvent.sharedLibrary OverrideState.exists).1)
      "abc" ScriptEvent.sharedLibrary = true ∧
    LocalStore.effectiveExists LocalStore.empty "abc" ScriptEvent.sharedLibrary = false := by
  constructor
  · exact (C7_override_precedence
      ((LocalStore.setOverride
        (LocalStore.setSnapshot LocalStore.empty "abc" ⟨some "", none, none, none⟩).1
        "abc" ScriptEvent.sharedLibrary OverrideState.exists).1)
      "abc" ScriptEvent.sharedLibrary).1 (by decide)
  · exact (C7_override_precedence LocalStore.empty "abc"
      ScriptEvent.sharedLibrary).2.2 rfl rfl

/-- C8 counterexample: one `ScenarioService.requestServerReload` call
fires four tree-state change notifications for the `shortId`, not
exactly one — the constructor forwards each of the three `LocalStore`
fires (`clearSnapshot`, `clearOverrides`, `requestServerReload`) to the
tree emitter, and the method then fires the tree emitter itself. -/
theorem C8_requestServerReload_four_notifications :
    (ScenarioService.requestServerReload ScenarioServiceState.empty "abc").2 =
      [some "abc", some "abc", some "abc", some "abc"] ∧
    ¬ ((ScenarioService.requestServerReload ScenarioServiceState.empty "abc").2.length = 1) := by
  exact ⟨rfl, by decide⟩

/-- C8 amended: `requestServerReload` clears the cached snapshot, the
slot overrides, the local scenario override model, the cached story-card
list and the container/child memoization, sets the one-shot reload flag,
and is idempotent on the state — but each call fires four change
notifications for the `shortId` (three forwarded from the `LocalStore`
plus one direct), not exactly one. -/
theorem C8_requestServerReload_amended (st : ScenarioServiceState)
    (shortId : String) :
    (ScenarioService.requestServerReload st shortId).1.store.snaps shortId = none ∧
    (ScenarioService.requestServerReload st shortId).1.store.overrides shortId = none ∧
    (ScenarioService.requestServerReload st shortId).1.store.forceReload shortId = true ∧
    (ScenarioService.requestServerReload st shortId).1.scenarioInfoCache shortId = none ∧
    (ScenarioService.requestServerReload st shortId).1.storyCardCache shortId = none ∧
    (ScenarioService.requestServerReload st shortId).1.scenarioOverrides shortId = none ∧
    (ScenarioService.requestServerReload st shortId).2 =
      [some shortId, some shortId, some shortId, some shortId] ∧
    ScenarioService.requestServerReload
        (ScenarioService.requestServerReload st shortId).1 shortId =
      ((ScenarioService.requestServerReload st shortId).1,
        (ScenarioService.requestServerReload st shortId).2) := by
  refine ⟨?_, ?_, ?_, ?_, ?_, ?_, rfl, ?_⟩
  · simp [ScenarioService.requestServerReload, LocalStore.clearSnapshot,
      LocalStore.clearOverrides, LocalStore.requestServerReload, updMap_same]
  · simp [ScenarioService.requestServerReload, LocalStore.clearSnapshot,
      LocalStore.clearOverrides, LocalStore.requestServerReload, updMap_same]
  · simp [ScenarioService.requestServerReload, LocalStore.clearSnapshot,
      LocalStore.clearOverrides, LocalStore.requestServerReload, updMap_same]
  · simp [ScenarioService.requestServerReload, updMap_same]
  · simp [ScenarioService.requestServerReload, updMap_same]
  · simp [ScenarioService.requestServerReload, updMap_same]
  · simp [ScenarioService.requestServerReload, LocalStore.clearSnapshot,
      LocalStore.clearOverrides, LocalStore.requestServerReload, updMap_idem]

/-- What the claim asserts about the fetch tier of
`getStoryCardsForTree`: one fetch, mapped, cached and pushed to
subscribers — plus exactly one refetch when `retryIfEmpty` is set and
the first fetch mapped to the empty list. -/
def fetchTierSpec (r : GetCardsResult) (shortId : String) (retry : Bool)
    (server : Nat → List (Option RawStoryCard)) : Prop :=
  (¬ (retry = true ∧ mapStoryCardsForTree (server 0) = []) →
    r.result = mapStoryCardsForTree (server 0) ∧ r.fetches = 1 ∧
    r.state.storyCardCache shortId = some r.result ∧ r.notified = [r.result]) ∧
  ((retry = true ∧ mapStoryCardsForTree (server 0) = []) →
    r.result = mapStoryCardsForTree (server 1) ∧ r.fetches = 2 ∧
    r.state.storyCardCache shortId = some r.result ∧
    r.notified = [[], r.result])

/-- C9: `getStoryCardsForTree` is a three-tier lookup — an unforced call
returns the override model's mapped story-card list when one is carried,
else the cached list with no fetch, else it fetches, caches the mapped
list and notifies subscribers; a forced call always takes the fetch
tier; and with `retryIfEmpty`, an empty first fetch triggers exactly one
refetch whose result is returned. -/
theorem C9_getStoryCardsForTree_tiers (st : ScenarioServiceState)
    (shortId : String) (retry : Bool)
    (server : Nat → List (Option RawStoryCard)) :
    (∀ cards, (st.scenarioOverrides shortId).bind (fun m => m.storyCards) = some cards →
      (ScenarioService.getStoryCardsForTree st shortId false retry server).result =
          mapStoryCardsForTree cards ∧
        (ScenarioService.getStoryCardsForTree st shortId false retry server).fetches = 0) ∧
    (∀ cached, (st.scenarioOverrides shortId).bind (fun m => m.storyCards) = none →
      st.storyCardCache shortId = some cached →
      ScenarioService.getStoryCardsForTree st shortId false retry server =
        { result := cached, state := st, fetches := 0, notified := [] }) ∧
    ((st.scenarioOverrides shortId).bind (fun m => m.storyCards) = none →
      st.storyCardCache shortId = none →
      fetchTierSpec (ScenarioService.getStoryCardsForTree st shortId false retry server)
        shortId retry server) ∧
    fetchTierSpec (ScenarioService.getStoryCardsForTree st shortId true retry server)
      shortId retry server := by
  refine ⟨?_, ?_, ?_, ?_⟩
  · intro cards h
    simp [ScenarioService.getStoryCardsForTree, h]
  · intro cached h hc
    simp [ScenarioService.getStoryCardsForTree, h, hc]
  · intro h hc
    constructor
    · intro hr
      simp [ScenarioService.getStoryCardsForTree, h, hc, updMap_same, hr]
    · intro hr
      simp [ScenarioService.getStoryCardsForTree, h, hc, updMap_same, hr.1, hr.2]
  · constructor
    · intro hr
      simp [ScenarioService.getStoryCardsForTree, updMap_same, hr]
    · intro hr
      simp [ScenarioService.getStoryCardsForTree, updMap_same, hr.1, hr.2]

/-- Witness for C9: a cached list is returned with no fetch and no state
change, and a forced call with `retryIfEmpty` whose fetches map to the
empty list performs exactly two fetches. -/
theorem C9_getStoryCardsForTree_witness :
    ScenarioService.getStoryCardsForTree
      (⟨LocalStore.empty, fun _ => none,
        fun s => if s = "abc" then some [⟨"1", "T", "custom", ""⟩] else none,
        fun _ => none⟩ : ScenarioServiceState) "abc" false false (fun _ => []) =
      { result := [⟨"1", "T", "custom", ""⟩]
        state := ⟨LocalStore.empty, fun _ => none,
          fun s => if s = "abc" then some [⟨"1", "T", "custom", ""⟩] else none,
          fun _ => none⟩
        fetches := 0
        notified := [] } ∧
    (ScenarioService.getStoryCardsForTree ScenarioServiceState.empty "abc" true true
        (fun _ => [])).fetches = 2 := by
  constructor
  · exact (C9_getStoryCardsForTree_tiers
      (⟨LocalStore.empty, fun _ => none,
        fun s => if s = "abc" then some [⟨"1", "T", "custom", ""⟩] else none,
        fun _ => none⟩ : ScenarioServiceState) "abc" false (fun _ => [])).2.1
      [⟨"1", "T", "custom", ""⟩] rfl (by simp)
  · exact ((C9_getStoryCardsForTree_tiers ScenarioServiceState.empty "abc" true
      (fun _ => [])).2.2.2.2 ⟨rfl, rfl⟩).2.1

/-- C10: with no override set, `effectiveExists` is decided by the
non-blank test `v.trim().length > 0` — `false` for an absent snapshot, a
`null` slot value, or a whitespace-only string, and `true` only when the
value has a non-whitespace character — and the post-save exists/missing
marking applies the same `nonBlank` test to the server's slot value
(marking "exists" when it passes or an editor is still open). -/
theorem C10_nonblank_existence (st : LocalStore) (shortId : String)
    (ev : ScriptEvent) (hov : st.overrideFor shortId ev = none) :
    (st.effectiveExists shortId ev =
      match valueOf (st.snaps shortId) ev with
      | some v => nonBlank v
      | none => false) ∧
    (∀ v, valueOf (st.snaps shortId) ev = some v → (∀ c ∈ v.data, jsWhitespace c) →
      st.effectiveExists shortId ev = false) ∧
    (valueOf (st.snaps shortId) ev = none → st.effectiveExists shortId ev = false) ∧
    (st.effectiveExists shortId ev = true →
      ∃ v, valueOf (st.snaps shortId) ev = some v ∧ ∃ c ∈ v.data, jsWhitespace c = false) ∧
    (∀ (val : Option String) (editorOpen : Bool),
      postSaveMark val editorOpen = OverrideState.exists ↔
        (∃ v, val = some v ∧ nonBlank v = true) ∨ editorOpen = true) := by
  have heff : st.effectiveExists shortId ev =
      match valueOf (st.snaps shortId) ev with
      | some v => nonBlank v
      | none => false := by
    simp [LocalStore.effectiveExists, hov]
  refine ⟨heff, ?_, ?_, ?_, ?_⟩
  · intro v hv hws
    rw [heff, hv]
    simp only [nonBlank, Nat.pos_iff_ne_zero, (jsTrim_length_eq_zero_iff v).mpr hws]
    simp
  · intro hv
    rw [heff, hv]
  · intro htrue
    rw [heff] at htrue
    rcases hv : valueOf (st.snaps shortId) ev with _ | v
    · rw [hv] at htrue
      simp at htrue
    · rw [hv] at htrue
      exact ⟨v, rfl, (nonBlank_iff_exists v).mp htrue⟩
  · intro val editorOpen
    cases val with
    | none =>
        cases editorOpen <;> simp [postSaveMark]
    | some v =>
        cases editorOpen <;> cases hnb : nonBlank v <;>
          simp [postSaveMark, hnb]

/-- Witness for C10: a whitespace-only snapshot value with no override
reads as non-existent, and the post-save marking marks a still-open slot
with blank server text as existing. -/
theorem C10_nonblank_existence_witness :
    LocalStore.effectiveExists
      (LocalStore.setSnapshot LocalStore.empty "abc" ⟨some "  \n\t", none, none, none⟩).1
      "abc" ScriptEvent.sharedLibrary = false ∧
    postSaveMark (some "   ") true = OverrideState.exists := by
  constructor
  · exact (C10_nonblank_existence
      (LocalStore.setSnapshot LocalStore.empty "abc" ⟨some "  \n\t", none, none, none⟩).1
      "abc" ScriptEvent.sharedLibrary rfl).2.1 "  \n\t" rfl (by decide)
  · exact ((C10_nonblank_existence LocalStore.empty "abc" ScriptEvent.sharedLibrary
      rfl).2.2.2.2 (some "   ") true).mpr (Or.inr rfl)
